import Mathlib

/-!
# core_timer.c : timers bound to Lua coroutines

A shallow embedding of `src/core_timer.c` (the five C functions `timeout_cb`,
`repeat_cb`, `timer_stop`, `timer_start`, `timer_new`) together with the small
part of the Lua C API and of libev that those functions call.

* A C pointer that may be `NULL` is an `Option`.
* A `lua_Number` / `ev_tstamp` (a C `double`) is a `LuaNumber`: NaN, the two
  infinities, or a finite value given by a rational. Only the sign tests
  `x > 0`, `x <= 0`, the truth test `if (x)` and one addition are used.
* The userdata blocks are a memory `Addr → EvTimer`; a block that was never
  written holds whatever the memory holds.
* `lua_resume` is recorded in a trace of `(coroutine, nargs)` pairs; what the
  resumed coroutine does to the rest of the world is a parameter `body`.
-/

namespace CoreTimer

/-- Address of a userdata block (an `ev_timer *`). -/
abbrev Addr := Nat

/-- Identity of a coroutine (a `lua_State *`). -/
abbrev Thread := Nat

/-- A C `double`, as used for `lua_Number` and `ev_tstamp`. -/
inductive LuaNumber where
  | nan
  | ninf
  | fin (q : ℚ)
  | pinf
  deriving DecidableEq

namespace LuaNumber

/-- The C test `x > 0` on a double (false for NaN). -/
def gt0 : LuaNumber → Bool
  | nan => false
  | ninf => false
  | fin q => decide (0 < q)
  | pinf => true

/-- The C test `x <= 0` on a double (false for NaN). -/
def le0 : LuaNumber → Bool
  | nan => false
  | ninf => true
  | fin q => decide (q ≤ 0)
  | pinf => false

/-- The C truth value of a double, as in `if (w->repeat)`: everything but zero. -/
def nonzero : LuaNumber → Bool
  | fin q => decide (q ≠ 0)
  | _ => true

/-- Addition of doubles (rounding of finite sums is not modelled). -/
def add : LuaNumber → LuaNumber → LuaNumber
  | nan, _ => nan
  | _, nan => nan
  | pinf, ninf => nan
  | ninf, pinf => nan
  | pinf, _ => pinf
  | _, pinf => pinf
  | ninf, _ => ninf
  | _, ninf => ninf
  | fin a, fin b => fin (a + b)

/-- The constant `0.` of the source. -/
def zero : LuaNumber := fin 0

end LuaNumber

/-- The function pointer stored in a watcher: one of the two callbacks of this
file, or anything else (`unset`: `NULL` or an indeterminate value). -/
inductive Callback where
  | unset
  | timeout_cb
  | repeat_cb
  deriving DecidableEq

/-- The fields of libev's `ev_timer` that the source and `ev_timer_again` use.
`repeat_` and `at_` are the C fields `repeat` and `at`; `data` is the watcher's
userdata slot, `none` for a `NULL` pointer. -/
structure EvTimer where
  active : Bool
  pending : Bool
  at_ : LuaNumber
  repeat_ : LuaNumber
  cb : Callback
  data : Option Thread
  deriving DecidableEq

/-- A Lua value on the stack of the calling state. A string carries the result
of Lua's string-to-number coercion; a full userdata carries the name under
which its metatable is registered (if any) and the address of its block. -/
inductive LuaValue where
  | nil
  | boolean (b : Bool)
  | number (n : LuaNumber)
  | str (s : String) (asNumber : Option LuaNumber)
  | thread (co : Thread)
  | userdata (tname : Option String) (p : Addr)
  deriving DecidableEq

/-- The part of the process the timer functions read and write: the event
loop's clock `mn_now`, the memory of the userdata blocks, the stack height of
every coroutine (`lua_gettop`), and the trace of `lua_resume` calls made so
far, each with the coroutine and the `nargs` it was given. -/
structure World where
  mn_now : LuaNumber
  timers : Addr → EvTimer
  gettop : Thread → Nat
  trace : List (Thread × Nat)

/-- What running a resumed coroutine does to the world: it gets the coroutine,
the number of arguments and the world at the time of the resume. -/
abbrev Body := Thread → Nat → World → World

/-- How a `lua_CFunction` ends: a normal return of `nresults` values with the
stack and world it leaves, a Lua error raised for argument `arg`
(`luaL_checknumber`), or a write through a `NULL` pointer (`fault`). -/
inductive Outcome where
  | ret (nresults : Nat) (L : List LuaValue) (w : World)
  | error (arg : Nat)
  | fault

/-- Write one userdata block. -/
def World.setTimer (w : World) (p : Addr) (t : EvTimer) : World :=
  { w with timers := fun q => if q = p then t else w.timers q }

/-! ## The Lua C API and libev, as far as the source calls them -/

/-- Modelled from the spec: the Lua C API is not under src/. The value at
stack index `i` (1-based), `none` when the index is beyond the top. -/
def lua_index (L : List LuaValue) (i : Nat) : Option LuaValue :=
  if i = 0 then none else L.get? (i - 1)

/-- Modelled from the spec: `luaL_testudata(L, i, tname)` of the Lua C API (not
under src/): the block of the value at index `i` when that value is a full
userdata whose metatable is the one registered as `tname`, `NULL` otherwise
("handle exists and is a valid Timer Handle"). -/
def luaL_testudata (L : List LuaValue) (i : Nat) (tname : String) : Option Addr :=
  match lua_index L i with
  | some (.userdata (some n) p) => if n = tname then some p else none
  | _ => none

/-- Modelled from the spec: `luaL_checknumber(L, i)` of the Lua C API (not
under src/): the number at index `i`, a string being coerced; any other value
raises a Lua error ("timeout and repeat_interval are numeric"). -/
def luaL_checknumber (L : List LuaValue) (i : Nat) : Option LuaNumber :=
  match lua_index L i with
  | some (.number n) => some n
  | some (.str _ (some n)) => some n
  | _ => none

/-- Modelled from the spec: `lua_tothread(L, i)` of the Lua C API (not under
src/): the coroutine at index `i`, `NULL` when the value is not a coroutine
("computation is a valid suspended computation reference"). -/
def lua_tothread (L : List LuaValue) (i : Nat) : Option Thread :=
  match lua_index L i with
  | some (.thread co) => some co
  | _ => none

/-- Modelled from the spec: `lua_settop(L, n)` of the Lua C API (not under
src/): the stack cut to `n` values, filled with `nil` when it was shorter. -/
def lua_settop (L : List LuaValue) (n : Nat) : List LuaValue :=
  (L ++ List.replicate n LuaValue.nil).take n

/-- Modelled from the spec: `lua_resume(co, NULL, nargs)` of the Lua C API (not
under src/): "resume a suspended computation, passing result values". The
coroutine runs (`body`), and the call is recorded in the trace. -/
def lua_resume (body : Body) (w : World) (co : Thread) (nargs : Nat) : World :=
  { body co nargs w with trace := w.trace ++ [(co, nargs)] }

/-- Modelled from the spec: libev's `ev_init(w, cb)` (not under src/): marks
the watcher as neither active nor pending and installs the callback. -/
def ev_init (t : EvTimer) (cb : Callback) : EvTimer :=
  { t with active := false, pending := false, cb := cb }

/-- Modelled from the spec: libev's `ev_timer_again(loop, w)` (not under
src/): "forces the event-loop registration to re-evaluate": with a zero
repeat interval the watcher is disarmed, otherwise it is (re)armed to expire
`repeat` after the loop's current time. -/
def ev_timer_again (mn_now : LuaNumber) (t : EvTimer) : EvTimer :=
  if t.repeat_.nonzero then
    { t with pending := false, active := true, at_ := mn_now.add t.repeat_ }
  else
    { t with pending := false, active := false }

/-- Modelled from the spec: the macro `ev_have_watcher_userdata(w)` of the
repository's headers (not under src/): "if a computation is attached". -/
def ev_have_watcher_userdata (t : EvTimer) : Bool :=
  t.data.isSome

/-- Modelled from the spec: the macro `ev_get_watcher_userdata(w)` of the
repository's headers (not under src/): the attached computation. -/
def ev_get_watcher_userdata (t : EvTimer) : Option Thread :=
  t.data

/-- Modelled from the spec: the macro `ev_set_watcher_userdata(w, d)` of the
repository's headers (not under src/): "attaches computation to the handle
(overwriting any prior attachment)". -/
def ev_set_watcher_userdata (t : EvTimer) (d : Option Thread) : EvTimer :=
  { t with data := d }

/-! ## The source -/

/-- The expression `lua_gettop(co) > 0 ? lua_gettop(co) - 1 : 0` of both
callbacks: the `nargs` handed to `lua_resume`. -/
def resume_nargs (w : World) (co : Thread) : Nat :=
  if w.gettop co > 0 then w.gettop co - 1 else 0

/-- The one-shot callback `timeout_cb(loop, timer, revents)`. -/
def timeout_cb (body : Body) (w : World) (timer : Addr) : World :=
  if ev_have_watcher_userdata (w.timers timer) then
    match ev_get_watcher_userdata (w.timers timer) with
    | some co =>
      let w1 := lua_resume body w co (resume_nargs w co)
      let w2 := w1.setTimer timer { w1.timers timer with repeat_ := LuaNumber.zero }
      w2.setTimer timer (ev_timer_again w2.mn_now (w2.timers timer))
    | none => w
  else w

/-- The repeating callback `repeat_cb(loop, timer, revents)`. -/
def repeat_cb (body : Body) (w : World) (timer : Addr) : World :=
  if ev_have_watcher_userdata (w.timers timer) then
    match ev_get_watcher_userdata (w.timers timer) with
    | some co => lua_resume body w co (resume_nargs w co)
    | none => w
  else w

/-- The Lua function `timer_stop(L)`. The test on `timer` is the one of the
source: a non-`NULL` handle returns at once, a `NULL` one is written through. -/
def timer_stop (w : World) (L : List LuaValue) : Outcome :=
  match luaL_testudata L 1 "__TIMER__" with
  | some _ => .ret 0 (lua_settop L 1) w
  | none => .fault

/-- The Lua function `timer_start(L)`. -/
def timer_start (w : World) (L : List LuaValue) : Outcome :=
  match luaL_testudata L 1 "__TIMER__" with
  | none => .ret 0 L w
  | some timer =>
    match luaL_checknumber L 2 with
    | none => .error 2
    | some timeout =>
      match luaL_checknumber L 3 with
      | none => .error 3
      | some rep =>
        match lua_tothread L 4 with
        | none => .ret 0 L w
        | some co =>
          let t0 := ev_set_watcher_userdata (w.timers timer) (some co)
          let t1 :=
            if timeout.gt0 && rep.gt0 then
              { ev_init t0 Callback.repeat_cb with repeat_ := rep }
            else if timeout.gt0 && rep.le0 then
              { ev_init t0 Callback.timeout_cb with repeat_ := timeout }
            else if timeout.le0 && rep.gt0 then
              { ev_init t0 Callback.timeout_cb with repeat_ := rep }
            else t0
          let w1 := w.setTimer timer (ev_timer_again w.mn_now t1)
          .ret 1 (lua_settop L 1) w1

/-- The Lua function `timer_new(L)`. `alloc` is the pointer that
`lua_newuserdata` returns, the new userdata being pushed on the stack; the
`NULL` case is the guard of the source (Lua itself raises an error instead of
returning `NULL`). `luaL_setmetatable` tags the userdata as `__TIMER__`. The
block is not written: its fields are what the memory held at `p`. -/
def timer_new (w : World) (L : List LuaValue) (alloc : Option Addr) : Outcome :=
  match alloc with
  | none => .ret 0 (lua_settop L 1) w
  | some p => .ret 1 (L ++ [.userdata (some "__TIMER__") p]) w

/-- Modelled from the spec: the event loop (libev, not under src/) when the
deadline of an armed handle is reached, before the callback runs: the clock
is at the deadline; a handle with a non-zero repeat interval is re-scheduled
"at the same interval" and stays armed, one with a zero interval is disarmed. -/
def rescheduled (w : World) (p : Addr) : World :=
  ({ w with mn_now := (w.timers p).at_ } : World).setTimer p
    (if (w.timers p).repeat_.nonzero then
      { w.timers p with at_ := (w.timers p).at_.add (w.timers p).repeat_ }
     else { w.timers p with active := false })

/-- Modelled from the spec: the event loop (libev, not under src/) "invoking
callback(handle) on expiry". An unarmed handle has no expiry. For an armed one
the loop re-schedules or disarms it and then runs the installed callback.
Calling a function pointer that is none of the two callbacks is undefined
(`none`). -/
def expire (body : Body) (w : World) (timer : Addr) : Option World :=
  if (w.timers timer).active then
    match (w.timers timer).cb with
    | .timeout_cb => some (timeout_cb body (rescheduled w timer) timer)
    | .repeat_cb => some (repeat_cb body (rescheduled w timer) timer)
    | .unset => none
  else some w

/-- Run `n` consecutive expiries of one handle. -/
def expireN (body : Body) : Nat → World → Addr → Option World
  | 0, w, _ => some w
  | n + 1, w, timer => (expire body w timer).bind (fun w1 => expireN body n w1 timer)

/-- The coroutines resumed so far, in order. -/
def World.resumed (w : World) : List Thread :=
  w.trace.map Prod.fst

/-- The handle value `userdata` with the `__TIMER__` metatable at block `p`. -/
def handle (p : Addr) : LuaValue :=
  .userdata (some "__TIMER__") p

/-- The arguments of a well-formed call `start(handle, timeout, repeat, co)`:
what the four argument reads of `timer_start` yield on the stack `L`. -/
def StartArgs (L : List LuaValue) (p : Addr) (timeout rep : LuaNumber) (co : Thread) : Prop :=
  luaL_testudata L 1 "__TIMER__" = some p ∧ luaL_checknumber L 2 = some timeout ∧
    luaL_checknumber L 3 = some rep ∧ lua_tothread L 4 = some co

instance (L : List LuaValue) (p : Addr) (timeout rep : LuaNumber) (co : Thread) :
    Decidable (StartArgs L p timeout rep co) := by
  unfold StartArgs
  infer_instance

/-- A coroutine body that touches nothing. -/
def idle : Body := fun _ _ w => w

/-- An all-zero watcher block. -/
def blank : EvTimer :=
  { active := false, pending := false, at_ := LuaNumber.zero, repeat_ := LuaNumber.zero,
    cb := Callback.unset, data := none }

/-- A world at time 0 whose memory is all zero, with empty coroutine stacks
and no resume made yet. -/
def world0 : World :=
  { mn_now := LuaNumber.zero, timers := fun _ => blank, gettop := fun _ => 0, trace := [] }

/-- The stack of the call `start(h, timeout, rep, co)` on the handle at block 0. -/
def startCall (timeout rep : ℚ) (co : Thread) : List LuaValue :=
  [handle 0, .number (.fin timeout), .number (.fin rep), .thread co]

/-- A world in which every block has coroutine 7 attached and every coroutine
stack holds three values. -/
def stackWorld : World :=
  { world0 with timers := fun _ => { blank with data := some 7 }, gettop := fun _ => 3 }

/-- The bytes left in a block by a timer that was used and then collected:
interval 5, the one-shot callback, coroutine 7 in the userdata slot. -/
def recycledBlock : EvTimer :=
  { active := false, pending := false, at_ := LuaNumber.fin 3, repeat_ := LuaNumber.fin 5,
    cb := Callback.timeout_cb, data := some 7 }

/-- A world whose free memory holds such recycled blocks. -/
def recycledWorld : World :=
  { world0 with timers := fun _ => recycledBlock }

/-- The recycled world after the degenerate `start(h, 0, 0, 9)` on the block
at 0: the left-over interval 5 and callback are kept, coroutine 9 is
attached, the handle is armed for time 5. -/
def rearmedWorld : World :=
  recycledWorld.setTimer 0
    { active := true, pending := false, at_ := LuaNumber.fin 5, repeat_ := LuaNumber.fin 5,
      cb := Callback.timeout_cb, data := some 9 }

/-- The world after `start(h, 1, 2, 7)` at time 0 on the handle at block 0:
armed in repeating mode with interval 2. -/
def armedWorld : World :=
  world0.setTimer 0
    { active := true, pending := false, at_ := LuaNumber.fin 2, repeat_ := LuaNumber.fin 2,
      cb := Callback.repeat_cb, data := some 7 }

/-! ## Basic facts -/

@[simp]
theorem setTimer_timers_self (w : World) (p : Addr) (t : EvTimer) :
    (w.setTimer p t).timers p = t := by
  simp [World.setTimer]

@[simp]
theorem setTimer_trace (w : World) (p : Addr) (t : EvTimer) :
    (w.setTimer p t).trace = w.trace := rfl

@[simp]
theorem setTimer_mn_now (w : World) (p : Addr) (t : EvTimer) :
    (w.setTimer p t).mn_now = w.mn_now := rfl

@[simp]
theorem setTimer_gettop (w : World) (p : Addr) (t : EvTimer) :
    (w.setTimer p t).gettop = w.gettop := rfl

theorem gt0_nonzero {x : LuaNumber} (h : x.gt0 = true) : x.nonzero = true := by
  cases x <;> simp_all [LuaNumber.gt0, LuaNumber.nonzero]
  exact ne_of_gt h

theorem le0_gt0 {x : LuaNumber} (h : x.le0 = true) : x.gt0 = false := by
  cases x <;> simp_all [LuaNumber.gt0, LuaNumber.le0]

theorem handle_testudata (p : Addr) (rest : List LuaValue) :
    luaL_testudata (handle p :: rest) 1 "__TIMER__" = some p := by
  simp [luaL_testudata, lua_index, handle]

theorem startCall_args (timeout rep : ℚ) (co : Thread) :
    StartArgs (startCall timeout rep co) 0 (.fin timeout) (.fin rep) co := by
  simp [StartArgs, startCall, luaL_testudata, luaL_checknumber, lua_tothread, lua_index, handle]

/-- What `timer_start` does on well-formed arguments, before the mode is
chosen by the signs of the two numbers. -/
theorem timer_start_args {w : World} {L : List LuaValue} {p : Addr} {t r : LuaNumber} {c : Thread}
    (h : StartArgs L p t r c) :
    timer_start w L = .ret 1 (lua_settop L 1)
      (w.setTimer p (ev_timer_again w.mn_now
        (if t.gt0 && r.gt0 then
            { ev_init (ev_set_watcher_userdata (w.timers p) (some c)) Callback.repeat_cb
                with repeat_ := r }
          else if t.gt0 && r.le0 then
            { ev_init (ev_set_watcher_userdata (w.timers p) (some c)) Callback.timeout_cb
                with repeat_ := t }
          else if t.le0 && r.gt0 then
            { ev_init (ev_set_watcher_userdata (w.timers p) (some c)) Callback.timeout_cb
                with repeat_ := r }
          else ev_set_watcher_userdata (w.timers p) (some c)))) := by
  obtain ⟨h1, h2, h3, h4⟩ := h
  simp [timer_start, h1, h2, h3, h4]

/-- The one-shot callback on a handle with an attached coroutine: one resume,
then interval 0 and the handle disarmed, whatever the coroutine did. -/
theorem timeout_cb_attached (body : Body) (w : World) (p : Addr) (co : Thread)
    (h : (w.timers p).data = some co) :
    (timeout_cb body w p).trace = w.trace ++ [(co, resume_nargs w co)] ∧
    ((timeout_cb body w p).timers p).repeat_ = LuaNumber.zero ∧
    ((timeout_cb body w p).timers p).active = false := by
  simp [timeout_cb, ev_have_watcher_userdata, ev_get_watcher_userdata, h, lua_resume,
    ev_timer_again, LuaNumber.nonzero, LuaNumber.zero]

/-- The repeating callback on a handle with an attached coroutine is exactly
one `lua_resume`. -/
theorem repeat_cb_attached (body : Body) (w : World) (p : Addr) (co : Thread)
    (h : (w.timers p).data = some co) :
    repeat_cb body w p = lua_resume body w co (resume_nargs w co) := by
  simp [repeat_cb, ev_have_watcher_userdata, ev_get_watcher_userdata, h]

/-- An unarmed handle has no expiry. -/
theorem expireN_inactive (body : Body) (p : Addr) :
    ∀ (n : Nat) (w : World), (w.timers p).active = false → expireN body n w p = some w := by
  intro n
  induction n with
  | zero => intro w _; rfl
  | succ n ih =>
    intro w h
    have h1 : expire body w p = some w := by simp [expire, h]
    simp [expireN, h1, ih w h]

theorem expire_timeout_cb (body : Body) (w : World) (p : Addr)
    (ha : (w.timers p).active = true) (hc : (w.timers p).cb = Callback.timeout_cb) :
    expire body w p = some (timeout_cb body (rescheduled w p) p) := by
  simp [expire, ha, hc]

theorem expire_repeat_cb (body : Body) (w : World) (p : Addr)
    (ha : (w.timers p).active = true) (hc : (w.timers p).cb = Callback.repeat_cb) :
    expire body w p = some (repeat_cb body (rescheduled w p) p) := by
  simp [expire, ha, hc]

theorem rescheduled_data (w : World) (p : Addr) :
    ((rescheduled w p).timers p).data = (w.timers p).data := by
  simp only [rescheduled, setTimer_timers_self]
  split <;> rfl

theorem rescheduled_cb (w : World) (p : Addr) :
    ((rescheduled w p).timers p).cb = (w.timers p).cb := by
  simp only [rescheduled, setTimer_timers_self]
  split <;> rfl

theorem rescheduled_repeat (w : World) (p : Addr) :
    ((rescheduled w p).timers p).repeat_ = (w.timers p).repeat_ := by
  simp only [rescheduled, setTimer_timers_self]
  split <;> rfl

theorem rescheduled_active (w : World) (p : Addr) (h : (w.timers p).repeat_.nonzero = true) :
    ((rescheduled w p).timers p).active = (w.timers p).active := by
  simp [rescheduled, h]

theorem rescheduled_trace (w : World) (p : Addr) : (rescheduled w p).trace = w.trace := rfl

/-- The first expiry of a handle armed with the one-shot callback resumes the
attached coroutine once and disarms the handle. -/
theorem expire_one_shot (body : Body) (w : World) (p : Addr) (co : Thread)
    (ha : (w.timers p).active = true) (hc : (w.timers p).cb = Callback.timeout_cb)
    (hd : (w.timers p).data = some co) :
    ∃ w2, expire body w p = some w2 ∧ w2.resumed = w.resumed ++ [co] ∧
      (w2.timers p).active = false ∧ (w2.timers p).repeat_ = LuaNumber.zero := by
  have key := timeout_cb_attached body (rescheduled w p) p co
    (by rw [rescheduled_data]; exact hd)
  refine ⟨_, expire_timeout_cb body w p ha hc, ?_, key.2.2, key.2.1⟩
  simp [World.resumed, key.1, rescheduled_trace]

/-- One expiry of a handle armed with the repeating callback, when the resumed
coroutine leaves the handle alone. -/
theorem expire_repeating (body : Body) (w : World) (p : Addr) (c : Thread)
    (hbody : ∀ co k w, (body co k w).timers p = w.timers p)
    (ha : (w.timers p).active = true) (hc : (w.timers p).cb = Callback.repeat_cb)
    (hnz : (w.timers p).repeat_.nonzero = true) (hd : (w.timers p).data = some c) :
    ∃ w1, expire body w p = some w1 ∧ w1.resumed = w.resumed ++ [c] ∧
      (w1.timers p).active = true ∧ (w1.timers p).cb = Callback.repeat_cb ∧
      (w1.timers p).repeat_ = (w.timers p).repeat_ ∧ (w1.timers p).data = some c := by
  have hcb := repeat_cb_attached body (rescheduled w p) p c
    (by rw [rescheduled_data]; exact hd)
  have htm : (repeat_cb body (rescheduled w p) p).timers p = (rescheduled w p).timers p := by
    rw [hcb]
    simp [lua_resume, hbody]
  refine ⟨_, expire_repeat_cb body w p ha hc, ?_, ?_, ?_, ?_, ?_⟩
  · rw [hcb]
    simp [World.resumed, lua_resume, rescheduled_trace]
  · rw [htm, rescheduled_active w p hnz, ha]
  · rw [htm, rescheduled_cb, hc]
  · rw [htm, rescheduled_repeat]
  · rw [htm, rescheduled_data, hd]

/-- Expiries of a handle armed with the repeating callback, when the resumed
coroutine leaves the handle alone: `n` expiries are `n` resumes and the handle
stays as it was armed. -/
theorem expireN_repeating (body : Body) (p : Addr) (c : Thread) (r : LuaNumber)
    (hr : r.nonzero = true) (hbody : ∀ co k w, (body co k w).timers p = w.timers p) :
    ∀ (n : Nat) (w : World), (w.timers p).active = true →
      (w.timers p).cb = Callback.repeat_cb → (w.timers p).repeat_ = r →
      (w.timers p).data = some c →
      ∃ w2, expireN body n w p = some w2 ∧ w2.resumed = w.resumed ++ List.replicate n c ∧
        (w2.timers p).active = true ∧ (w2.timers p).cb = Callback.repeat_cb ∧
        (w2.timers p).repeat_ = r ∧ (w2.timers p).data = some c := by
  intro n
  induction n with
  | zero =>
    intro w ha hc hrp hd
    exact ⟨w, rfl, by simp, ha, hc, hrp, hd⟩
  | succ n ih =>
    intro w ha hc hrp hd
    obtain ⟨w1, h1, hres1, ha1, hc1, hr1, hd1⟩ :=
      expire_repeating body w p c hbody ha hc (by rw [hrp]; exact hr) hd
    obtain ⟨w2, h2, hres2, ha2, hc2, hr2, hd2⟩ := ih w1 ha1 hc1 (by rw [hr1, hrp]) hd1
    refine ⟨w2, by simp [expireN, h1, h2], ?_, ha2, hc2, hr2, hd2⟩
    rw [hres2, hres1]
    simp [List.replicate_succ]

/-- A successful `timer_start` attaches the coroutine it was given and resumes
nothing, in every mode. -/
theorem timer_start_attaches {w : World} {L : List LuaValue} {p : Addr} {t r : LuaNumber}
    {c : Thread} (h : StartArgs L p t r c) :
    ∃ w1, timer_start w L = .ret 1 (lua_settop L 1) w1 ∧ (w1.timers p).data = some c ∧
      w1.trace = w.trace := by
  refine ⟨_, timer_start_args h, ?_, rfl⟩
  simp only [setTimer_timers_self, ev_timer_again, ev_init, ev_set_watcher_userdata]
  split_ifs <;> rfl

/-- An expiry of a handle with coroutine `co` attached either resumes `co`
once or, the handle being unarmed, changes nothing. -/
theorem expire_resumes_attached (body : Body) (w : World) (p : Addr) (co : Thread)
    (hd : (w.timers p).data = some co) (w3 : World) (h : expire body w p = some w3) :
    w3.resumed = w.resumed ++ [co] ∨ w3 = w := by
  have hd1 : ((rescheduled w p).timers p).data = some co := by rw [rescheduled_data]; exact hd
  unfold expire at h
  split_ifs at h with ha
  · split at h
    · left
      cases h
      simp [World.resumed, (timeout_cb_attached body _ p co hd1).1, rescheduled_trace]
    · left
      cases h
      rw [repeat_cb_attached body _ p co hd1]
      simp [World.resumed, lua_resume, rescheduled_trace]
    · cases h
  · right
    cases h
    rfl

/-! ## The claims -/

/-- C2: on well-formed arguments with `timeout > 0` and `repeat > 0`,
`timer_start` returns one result and leaves the handle with the repeating
callback `repeat_cb`, the attached coroutine, the repeat interval equal to the
`repeat` argument and armed to expire `repeat` after the current loop time; the
value of `timeout` does not occur in the result. -/
theorem timer_start_repeating (w : World) (L : List LuaValue) (p : Addr) (t r : LuaNumber)
    (c : Thread) (h : StartArgs L p t r c) (ht : t.gt0 = true) (hr : r.gt0 = true) :
    timer_start w L = .ret 1 (lua_settop L 1)
      (w.setTimer p
        { active := true, pending := false, at_ := w.mn_now.add r, repeat_ := r,
          cb := Callback.repeat_cb, data := some c }) := by
  rw [timer_start_args h]
  simp [ht, hr, ev_timer_again, ev_init, ev_set_watcher_userdata, gt0_nonzero hr]

/-- Witness of C2: `start(h, 0.05, 0.2, 7)` at time 0 arms the handle with
`repeat_cb` and interval 0.2, first expiry at 0.2. -/
theorem timer_start_repeating_witness :
    StartArgs (startCall (1/20) (1/5) 7) 0 (.fin (1/20)) (.fin (1/5)) 7 ∧
    (LuaNumber.fin (1/20)).gt0 = true ∧ (LuaNumber.fin (1/5)).gt0 = true ∧
    timer_start world0 (startCall (1/20) (1/5) 7) = .ret 1 (lua_settop (startCall (1/20) (1/5) 7) 1)
      (world0.setTimer 0
        { active := true, pending := false, at_ := world0.mn_now.add (.fin (1/5)),
          repeat_ := .fin (1/5), cb := Callback.repeat_cb, data := some 7 }) :=
  ⟨startCall_args _ _ _, by simp [LuaNumber.gt0], by simp [LuaNumber.gt0],
    timer_start_repeating world0 _ 0 (.fin (1/20)) (.fin (1/5)) 7 (startCall_args _ _ _)
      (by simp [LuaNumber.gt0]) (by simp [LuaNumber.gt0])⟩

/-- C3: on well-formed arguments of which exactly one of `timeout`, `repeat` is
`> 0` and the other is `<= 0`, `timer_start` returns one result and leaves the
handle with the one-shot callback `timeout_cb`, the attached coroutine, and the
repeat interval equal to the positive one of the two: `timeout` in the first
case, `repeat` in the second; the handle is armed to expire that long after the
current loop time. -/
theorem timer_start_one_shot (w : World) (L : List LuaValue) (p : Addr) (t r : LuaNumber)
    (c : Thread) (h : StartArgs L p t r c) :
    (t.gt0 = true → r.le0 = true →
      timer_start w L = .ret 1 (lua_settop L 1)
        (w.setTimer p
          { active := true, pending := false, at_ := w.mn_now.add t, repeat_ := t,
            cb := Callback.timeout_cb, data := some c })) ∧
    (t.le0 = true → r.gt0 = true →
      timer_start w L = .ret 1 (lua_settop L 1)
        (w.setTimer p
          { active := true, pending := false, at_ := w.mn_now.add r, repeat_ := r,
            cb := Callback.timeout_cb, data := some c })) := by
  rw [timer_start_args h]
  constructor
  · intro ht hr
    simp [ht, hr, le0_gt0 hr, ev_timer_again, ev_init, ev_set_watcher_userdata, gt0_nonzero ht]
  · intro ht hr
    simp [ht, hr, le0_gt0 ht, ev_timer_again, ev_init, ev_set_watcher_userdata, gt0_nonzero hr]

/-- Witness of C3: `start(h, 0.1, 0, 7)` installs `timeout_cb` with interval
0.1, and `start(h, 0, 0.2, 7)` installs `timeout_cb` with interval 0.2. -/
theorem timer_start_one_shot_witness :
    (StartArgs (startCall (1/10) 0 7) 0 (.fin (1/10)) (.fin 0) 7 ∧
      (LuaNumber.fin (1/10)).gt0 = true ∧ (LuaNumber.fin 0).le0 = true ∧
      timer_start world0 (startCall (1/10) 0 7) = .ret 1 (lua_settop (startCall (1/10) 0 7) 1)
        (world0.setTimer 0
          { active := true, pending := false, at_ := world0.mn_now.add (.fin (1/10)),
            repeat_ := .fin (1/10), cb := Callback.timeout_cb, data := some 7 })) ∧
    (StartArgs (startCall 0 (1/5) 7) 0 (.fin 0) (.fin (1/5)) 7 ∧
      (LuaNumber.fin 0).le0 = true ∧ (LuaNumber.fin (1/5)).gt0 = true ∧
      timer_start world0 (startCall 0 (1/5) 7) = .ret 1 (lua_settop (startCall 0 (1/5) 7) 1)
        (world0.setTimer 0
          { active := true, pending := false, at_ := world0.mn_now.add (.fin (1/5)),
            repeat_ := .fin (1/5), cb := Callback.timeout_cb, data := some 7 })) :=
  ⟨⟨startCall_args _ _ _, by simp [LuaNumber.gt0], by simp [LuaNumber.le0],
      (timer_start_one_shot world0 _ 0 (.fin (1/10)) (.fin 0) 7 (startCall_args _ _ _)).1
        (by simp [LuaNumber.gt0]) (by simp [LuaNumber.le0])⟩,
    ⟨startCall_args _ _ _, by simp [LuaNumber.le0], by simp [LuaNumber.gt0],
      (timer_start_one_shot world0 _ 0 (.fin 0) (.fin (1/5)) 7 (startCall_args _ _ _)).2
        (by simp [LuaNumber.le0]) (by simp [LuaNumber.gt0])⟩⟩

/-- C1: the code does not do what the claim says. For every valid handle
`timer_stop` returns at once with zero results and the world unchanged: the
repeat interval is not set to 0 and `ev_timer_again` is not called. After
`start(h, 1, 2, 7)` and `stop(h)` the handle still has interval 2, is still
armed, and its next expiry resumes coroutine 7. -/
theorem timer_stop_valid_handle_unchanged :
    (∀ (w : World) (p : Addr) (rest : List LuaValue),
      timer_stop w (handle p :: rest) = .ret 0 [handle p] w) ∧
    (timer_start world0 (startCall 1 2 7) = .ret 1 [handle 0] armedWorld ∧
      timer_stop armedWorld [handle 0] = .ret 0 [handle 0] armedWorld ∧
      (armedWorld.timers 0).repeat_ = .fin 2 ∧ (armedWorld.timers 0).active = true ∧
      (expire idle armedWorld 0).map World.resumed = some [7]) := by
  constructor
  · intro w p rest
    simp [timer_stop, handle_testudata, lua_settop]
  · refine ⟨?_, ?_, ?_, ?_, ?_⟩
    · rw [timer_start_repeating world0 _ 0 (.fin 1) (.fin 2) 7 (startCall_args _ _ _)
        (by simp [LuaNumber.gt0]) (by simp [LuaNumber.gt0])]
      simp [lua_settop, startCall, armedWorld, world0, LuaNumber.add, LuaNumber.zero]
    · simp [timer_stop, handle_testudata, lua_settop]
    · simp [armedWorld]
    · simp [armedWorld]
    · simp [expire, rescheduled, armedWorld, LuaNumber.nonzero, repeat_cb, ev_have_watcher_userdata,
        ev_get_watcher_userdata, lua_resume, World.resumed, world0, idle]

/-- C8: the code does not do what the claim says. When argument 1 is not a
valid Timer Handle, `timer_stop` does not return: it falls through to
`timer->repeat = 0.` with `timer == NULL`, a write through a null pointer. -/
theorem timer_stop_invalid_handle_faults (w : World) (L : List LuaValue)
    (h : luaL_testudata L 1 "__TIMER__" = none) : timer_stop w L = .fault := by
  simp [timer_stop, h]

/-- Witness of C8: `stop(nil)`. -/
theorem timer_stop_invalid_handle_faults_witness :
    luaL_testudata [LuaValue.nil] 1 "__TIMER__" = none ∧
    timer_stop world0 [LuaValue.nil] = .fault :=
  ⟨by simp [luaL_testudata, lua_index],
    timer_stop_invalid_handle_faults world0 [LuaValue.nil] (by simp [luaL_testudata, lua_index])⟩

/-- C7 fails as stated: with a valid handle, `nil` for `timeout` and no
coroutine as argument 4, `timer_start` raises a Lua error for argument 2
instead of returning zero results. -/
theorem timer_start_usage_error_counterexample :
    lua_tothread [handle 0, .nil, .nil, .nil] 4 = none ∧
    timer_start world0 [handle 0, .nil, .nil, .nil] = .error 2 := by
  simp [timer_start, luaL_testudata, luaL_checknumber, lua_tothread, lua_index, handle]

/-- C7, amended: `timer_start` returns zero results and leaves the stack and
the world unchanged when argument 1 is not a valid Timer Handle, and also when
argument 1 is a valid handle, arguments 2 and 3 are numbers and argument 4 is
not a coroutine. With a valid handle and a non-number as argument 2 or 3
it raises a Lua error for that argument, whatever argument 4 is. -/
theorem timer_start_usage_error (w : World) (L : List LuaValue) :
    (luaL_testudata L 1 "__TIMER__" = none → timer_start w L = .ret 0 L w) ∧
    (∀ p t r, luaL_testudata L 1 "__TIMER__" = some p → luaL_checknumber L 2 = some t →
      luaL_checknumber L 3 = some r → lua_tothread L 4 = none →
      timer_start w L = .ret 0 L w) ∧
    (∀ p, luaL_testudata L 1 "__TIMER__" = some p → luaL_checknumber L 2 = none →
      timer_start w L = .error 2) ∧
    (∀ p t, luaL_testudata L 1 "__TIMER__" = some p → luaL_checknumber L 2 = some t →
      luaL_checknumber L 3 = none → timer_start w L = .error 3) := by
  refine ⟨?_, ?_, ?_, ?_⟩
  · intro h
    simp [timer_start, h]
  · intro p t r h1 h2 h3 h4
    simp [timer_start, h1, h2, h3, h4]
  · intro p h1 h2
    simp [timer_start, h1, h2]
  · intro p t h1 h2 h3
    simp [timer_start, h1, h2, h3]

/-- Witness of C7 amended: `start(nil, 1, 2, co)` and `start(h, 1, 2, nil)`
return zero results and change nothing; `start(h, nil, 2, co)` and
`start(h, 1, nil, co)` raise an error. -/
theorem timer_start_usage_error_witness :
    (luaL_testudata [.nil, .number (.fin 1), .number (.fin 2), .thread 7] 1 "__TIMER__" = none ∧
      timer_start world0 [.nil, .number (.fin 1), .number (.fin 2), .thread 7]
        = .ret 0 [.nil, .number (.fin 1), .number (.fin 2), .thread 7] world0) ∧
    (lua_tothread [handle 0, .number (.fin 1), .number (.fin 2), .nil] 4 = none ∧
      timer_start world0 [handle 0, .number (.fin 1), .number (.fin 2), .nil]
        = .ret 0 [handle 0, .number (.fin 1), .number (.fin 2), .nil] world0) ∧
    timer_start world0 [handle 0, .nil, .number (.fin 2), .thread 7] = .error 2 ∧
    timer_start world0 [handle 0, .number (.fin 1), .nil, .thread 7] = .error 3 :=
  ⟨⟨by simp [luaL_testudata, lua_index],
      (timer_start_usage_error world0 _).1 (by simp [luaL_testudata, lua_index])⟩,
    ⟨by simp [lua_tothread, lua_index],
      (timer_start_usage_error world0 _).2.1 0 (.fin 1) (.fin 2) (handle_testudata _ _)
        (by simp [luaL_checknumber, lua_index]) (by simp [luaL_checknumber, lua_index])
        (by simp [lua_tothread, lua_index])⟩,
    (timer_start_usage_error world0 _).2.2.1 0 (handle_testudata _ _)
      (by simp [luaL_checknumber, lua_index]),
    (timer_start_usage_error world0 _).2.2.2 0 (.fin 1) (handle_testudata _ _)
      (by simp [luaL_checknumber, lua_index]) (by simp [luaL_checknumber, lua_index])⟩

/-- C4: the one-shot callback `timeout_cb`, on a handle with an attached
coroutine, makes exactly one `lua_resume` of that coroutine and leaves the
handle with repeat interval 0 and disarmed, whatever the coroutine did; with
no coroutine attached it leaves the world unchanged. Hence after a start in
one-shot mode (exactly one of `timeout`, `repeat` positive, the other `<= 0`)
any number `n + 1` of expiries resumes the coroutine exactly once and leaves
the handle disarmed. -/
theorem timeout_cb_resumes_once_and_disarms :
    (∀ (body : Body) (w : World) (p : Addr) (co : Thread), (w.timers p).data = some co →
      (timeout_cb body w p).trace = w.trace ++ [(co, resume_nargs w co)] ∧
      ((timeout_cb body w p).timers p).repeat_ = LuaNumber.zero ∧
      ((timeout_cb body w p).timers p).active = false) ∧
    (∀ (body : Body) (w : World) (p : Addr), (w.timers p).data = none →
      timeout_cb body w p = w) ∧
    (∀ (body : Body) (w : World) (L : List LuaValue) (p : Addr) (t r : LuaNumber) (c : Thread)
      (n : Nat), StartArgs L p t r c →
      (t.gt0 = true ∧ r.le0 = true) ∨ (t.le0 = true ∧ r.gt0 = true) →
      ∃ w1 w2, timer_start w L = .ret 1 (lua_settop L 1) w1 ∧
        expireN body (n + 1) w1 p = some w2 ∧ w2.resumed = w.resumed ++ [c] ∧
        (w2.timers p).active = false ∧ (w2.timers p).repeat_ = LuaNumber.zero) := by
  refine ⟨timeout_cb_attached, ?_, ?_⟩
  · intro body w p h
    simp [timeout_cb, ev_have_watcher_userdata, h]
  · intro body w L p t r c n h hmode
    have hstart : ∃ x, timer_start w L = .ret 1 (lua_settop L 1)
        (w.setTimer p
          { active := true, pending := false, at_ := w.mn_now.add x, repeat_ := x,
            cb := Callback.timeout_cb, data := some c }) := by
      rcases hmode with ⟨ht, hr⟩ | ⟨ht, hr⟩
      · exact ⟨t, (timer_start_one_shot w L p t r c h).1 ht hr⟩
      · exact ⟨r, (timer_start_one_shot w L p t r c h).2 ht hr⟩
    obtain ⟨x, hx⟩ := hstart
    obtain ⟨w2, h2, hres, ha, hrp⟩ := expire_one_shot body
      (w.setTimer p
        { active := true, pending := false, at_ := w.mn_now.add x, repeat_ := x,
          cb := Callback.timeout_cb, data := some c }) p c (by simp) (by simp) (by simp)
    refine ⟨_, w2, hx, ?_, ?_, ha, hrp⟩
    · simp [expireN, h2, expireN_inactive body p n w2 ha]
    · rw [hres]
      simp [World.resumed]

/-- Witness of C4: `timeout_cb` on a block with coroutine 7 attached and a
stack of three values; on a blank block; and `start(h, 0.1, 0, 7)` followed by
three expiries. -/
theorem timeout_cb_resumes_once_and_disarms_witness :
    ((stackWorld.timers 0).data = some 7 ∧
      (timeout_cb idle stackWorld 0).trace = stackWorld.trace ++ [(7, resume_nargs stackWorld 7)] ∧
      ((timeout_cb idle stackWorld 0).timers 0).repeat_ = LuaNumber.zero ∧
      ((timeout_cb idle stackWorld 0).timers 0).active = false) ∧
    ((world0.timers 0).data = none ∧ timeout_cb idle world0 0 = world0) ∧
    (StartArgs (startCall (1/10) 0 7) 0 (.fin (1/10)) (.fin 0) 7 ∧
      ∃ w1 w2, timer_start world0 (startCall (1/10) 0 7)
          = .ret 1 (lua_settop (startCall (1/10) 0 7) 1) w1 ∧
        expireN idle (2 + 1) w1 0 = some w2 ∧ w2.resumed = world0.resumed ++ [7] ∧
        (w2.timers 0).active = false ∧ (w2.timers 0).repeat_ = LuaNumber.zero) :=
  ⟨⟨rfl, timeout_cb_resumes_once_and_disarms.1 idle stackWorld 0 7 rfl⟩,
    ⟨rfl, timeout_cb_resumes_once_and_disarms.2.1 idle world0 0 rfl⟩,
    ⟨startCall_args _ _ _,
      timeout_cb_resumes_once_and_disarms.2.2 idle world0 _ 0 (.fin (1/10)) (.fin 0) 7 2
        (startCall_args _ _ _) (Or.inl ⟨by simp [LuaNumber.gt0], by simp [LuaNumber.le0]⟩)⟩⟩

/-- C5: the repeating callback `repeat_cb`, on a handle with an attached
coroutine, makes exactly one `lua_resume` of that coroutine and writes no
field of any watcher itself: the memory is as the resumed coroutine left it,
so a coroutine that leaves the handle alone finds it unchanged. Hence after a
start in repeating mode (`timeout > 0`, `repeat > 0`), with a coroutine that
leaves the handle alone, `n` expiries resume the coroutine exactly `n` times
and the handle is still armed with the same interval, callback and
coroutine. -/
theorem repeat_cb_resumes_and_stays_armed :
    (∀ (body : Body) (w : World) (p : Addr) (co : Thread), (w.timers p).data = some co →
      (repeat_cb body w p).trace = w.trace ++ [(co, resume_nargs w co)] ∧
      (repeat_cb body w p).timers = (body co (resume_nargs w co) w).timers ∧
      ((body co (resume_nargs w co) w).timers p = w.timers p →
        (repeat_cb body w p).timers p = w.timers p)) ∧
    (∀ (body : Body) (w : World) (L : List LuaValue) (p : Addr) (t r : LuaNumber) (c : Thread)
      (n : Nat), StartArgs L p t r c → t.gt0 = true → r.gt0 = true →
      (∀ co k w0, (body co k w0).timers p = w0.timers p) →
      ∃ w1 w2, timer_start w L = .ret 1 (lua_settop L 1) w1 ∧
        expireN body n w1 p = some w2 ∧ w2.resumed = w.resumed ++ List.replicate n c ∧
        (w2.timers p).active = true ∧ (w2.timers p).cb = Callback.repeat_cb ∧
        (w2.timers p).repeat_ = r ∧ (w2.timers p).data = some c) := by
  constructor
  · intro body w p co h
    rw [repeat_cb_attached body w p co h]
    refine ⟨rfl, rfl, ?_⟩
    intro hb
    simpa [lua_resume] using hb
  · intro body w L p t r c n h ht hr hbody
    obtain ⟨w2, h2, hres, ha, hc, hrp, hd⟩ := expireN_repeating body p c r (gt0_nonzero hr) hbody n
      (w.setTimer p
        { active := true, pending := false, at_ := w.mn_now.add r, repeat_ := r,
          cb := Callback.repeat_cb, data := some c }) (by simp) (by simp) (by simp) (by simp)
    refine ⟨_, w2, timer_start_repeating w L p t r c h ht hr, h2, ?_, ha, hc, hrp, hd⟩
    rw [hres]
    simp [World.resumed]

/-- Witness of C5: `repeat_cb` on a block with coroutine 7 attached, and
`start(h, 0.05, 0.2, 7)` followed by three expiries. -/
theorem repeat_cb_resumes_and_stays_armed_witness :
    ((stackWorld.timers 0).data = some 7 ∧
      (repeat_cb idle stackWorld 0).trace = stackWorld.trace ++ [(7, resume_nargs stackWorld 7)] ∧
      (repeat_cb idle stackWorld 0).timers = (idle 7 (resume_nargs stackWorld 7) stackWorld).timers ∧
      ((idle 7 (resume_nargs stackWorld 7) stackWorld).timers 0 = stackWorld.timers 0 →
        (repeat_cb idle stackWorld 0).timers 0 = stackWorld.timers 0)) ∧
    (StartArgs (startCall (1/20) (1/5) 7) 0 (.fin (1/20)) (.fin (1/5)) 7 ∧
      ∃ w1 w2, timer_start world0 (startCall (1/20) (1/5) 7)
          = .ret 1 (lua_settop (startCall (1/20) (1/5) 7) 1) w1 ∧
        expireN idle 3 w1 0 = some w2 ∧ w2.resumed = world0.resumed ++ List.replicate 3 7 ∧
        (w2.timers 0).active = true ∧ (w2.timers 0).cb = Callback.repeat_cb ∧
        (w2.timers 0).repeat_ = .fin (1/5) ∧ (w2.timers 0).data = some 7) :=
  ⟨⟨rfl, repeat_cb_resumes_and_stays_armed.1 idle stackWorld 0 7 rfl⟩,
    ⟨startCall_args _ _ _,
      repeat_cb_resumes_and_stays_armed.2 idle world0 _ 0 (.fin (1/20)) (.fin (1/5)) 7 3
        (startCall_args _ _ _) (by simp [LuaNumber.gt0]) (by simp [LuaNumber.gt0])
        (fun _ _ _ => rfl)⟩⟩

/-- C6 fails as stated: with coroutine 7 attached and three values on its
stack, both callbacks pass `nargs = 2` to `lua_resume`, not 0. -/
theorem callbacks_resume_nargs_counterexample :
    (stackWorld.timers 0).data = some 7 ∧ stackWorld.gettop 7 = 3 ∧
    (timeout_cb idle stackWorld 0).trace = [(7, 2)] ∧
    (repeat_cb idle stackWorld 0).trace = [(7, 2)] := by
  refine ⟨rfl, rfl, ?_, ?_⟩
  · rw [(timeout_cb_attached idle stackWorld 0 7 rfl).1]
    simp [resume_nargs, stackWorld, world0]
  · rw [repeat_cb_attached idle stackWorld 0 7 rfl]
    simp [lua_resume, resume_nargs, stackWorld, world0]

/-- C6, amended: in both callbacks the number of arguments passed to
`lua_resume` for the attached coroutine is `lua_gettop(co) - 1` when its stack
is not empty and 0 when it is empty; it is zero exactly when the stack holds at
most one value. -/
theorem callbacks_resume_nargs (body : Body) (w : World) (p : Addr) (co : Thread)
    (h : (w.timers p).data = some co) :
    (timeout_cb body w p).trace = w.trace ++ [(co, resume_nargs w co)] ∧
    (repeat_cb body w p).trace = w.trace ++ [(co, resume_nargs w co)] ∧
    resume_nargs w co = w.gettop co - 1 ∧
    (resume_nargs w co = 0 ↔ w.gettop co ≤ 1) := by
  refine ⟨(timeout_cb_attached body w p co h).1, ?_, ?_, ?_⟩
  · rw [repeat_cb_attached body w p co h]
    rfl
  · unfold resume_nargs
    split_ifs <;> omega
  · unfold resume_nargs
    split_ifs <;> omega

/-- Witness of C6 amended: coroutine 7 attached with three values on its
stack gets two arguments. -/
theorem callbacks_resume_nargs_witness :
    (stackWorld.timers 0).data = some 7 ∧
    (timeout_cb idle stackWorld 0).trace = stackWorld.trace ++ [(7, resume_nargs stackWorld 7)] ∧
    (repeat_cb idle stackWorld 0).trace = stackWorld.trace ++ [(7, resume_nargs stackWorld 7)] ∧
    resume_nargs stackWorld 7 = stackWorld.gettop 7 - 1 ∧
    (resume_nargs stackWorld 7 = 0 ↔ stackWorld.gettop 7 ≤ 1) :=
  ⟨rfl, callbacks_resume_nargs idle stackWorld 0 7 rfl⟩

/-- C9: two successful calls of `timer_start` on the same handle, the first
with coroutine `c1` and the second with `c2`, whatever the four numbers are
and with no expiry in between, resume nothing and leave `c2` as the attached
coroutine; either callback run on the handle afterwards resumes `c2`, and an
expiry of the handle afterwards resumes `c2` once or (the handle being
unarmed) does nothing. -/
theorem timer_start_twice_overwrites (body : Body) (w : World) (L1 L2 : List LuaValue)
    (p : Addr) (t1 r1 t2 r2 : LuaNumber) (c1 c2 : Thread)
    (h1 : StartArgs L1 p t1 r1 c1) (h2 : StartArgs L2 p t2 r2 c2) :
    ∃ w1 w2, timer_start w L1 = .ret 1 (lua_settop L1 1) w1 ∧
      timer_start w1 L2 = .ret 1 (lua_settop L2 1) w2 ∧
      (w2.timers p).data = some c2 ∧ w2.trace = w.trace ∧
      (timeout_cb body w2 p).trace = w.trace ++ [(c2, resume_nargs w2 c2)] ∧
      (repeat_cb body w2 p).trace = w.trace ++ [(c2, resume_nargs w2 c2)] ∧
      (∀ w3, expire body w2 p = some w3 → w3.resumed = w.resumed ++ [c2] ∨ w3 = w2) := by
  obtain ⟨w1, hs1, _, ht1⟩ := timer_start_attaches (w := w) h1
  obtain ⟨w2, hs2, hd2, ht2⟩ := timer_start_attaches (w := w1) h2
  have htr : w2.trace = w.trace := by rw [ht2, ht1]
  have hres : w2.resumed = w.resumed := by simp [World.resumed, htr]
  refine ⟨w1, w2, hs1, hs2, hd2, htr, ?_, ?_, ?_⟩
  · rw [(timeout_cb_attached body w2 p c2 hd2).1, htr]
  · rw [repeat_cb_attached body w2 p c2 hd2]
    simp [lua_resume, htr]
  · intro w3 h3
    rw [← hres]
    exact expire_resumes_attached body w2 p c2 hd2 w3 h3

/-- Witness of C9: `start(h, 0.1, 0, 7)` then `start(h, 0.05, 0.2, 9)`. -/
theorem timer_start_twice_overwrites_witness :
    StartArgs (startCall (1/10) 0 7) 0 (.fin (1/10)) (.fin 0) 7 ∧
    StartArgs (startCall (1/20) (1/5) 9) 0 (.fin (1/20)) (.fin (1/5)) 9 ∧
    ∃ w1 w2, timer_start world0 (startCall (1/10) 0 7)
        = .ret 1 (lua_settop (startCall (1/10) 0 7) 1) w1 ∧
      timer_start w1 (startCall (1/20) (1/5) 9)
        = .ret 1 (lua_settop (startCall (1/20) (1/5) 9) 1) w2 ∧
      (w2.timers 0).data = some 9 ∧ w2.trace = world0.trace ∧
      (timeout_cb idle w2 0).trace = world0.trace ++ [(9, resume_nargs w2 9)] ∧
      (repeat_cb idle w2 0).trace = world0.trace ++ [(9, resume_nargs w2 9)] ∧
      (∀ w3, expire idle w2 0 = some w3 → w3.resumed = world0.resumed ++ [9] ∨ w3 = w2) :=
  ⟨startCall_args _ _ _, startCall_args _ _ _,
    timer_start_twice_overwrites idle world0 _ _ 0 (.fin (1/10)) (.fin 0) (.fin (1/20))
      (.fin (1/5)) 7 9 (startCall_args _ _ _) (startCall_args _ _ _)⟩

/-- C10: the code does not do what the claim says. `timer_new` returns the new
userdata tagged `__TIMER__` without writing any of its fields, so the handle
holds what the memory held. On a recycled block the fresh handle has repeat
interval 5 and coroutine 7 in the userdata slot; `timeout_cb` on it resumes
coroutine 7, and the degenerate `start(h, 0, 0, 9)` arms it with the left-over
interval and callback, so that its expiry resumes coroutine 9. -/
theorem timer_new_leaves_block_unwritten :
    (∀ (w : World) (L : List LuaValue) (p : Addr),
      timer_new w L (some p) = .ret 1 (L ++ [handle p]) w) ∧
    (timer_new recycledWorld [] (some 0) = .ret 1 [handle 0] recycledWorld ∧
      (recycledWorld.timers 0).repeat_ = .fin 5 ∧ (recycledWorld.timers 0).data = some 7 ∧
      (timeout_cb idle recycledWorld 0).trace = [(7, 0)] ∧
      timer_start recycledWorld (startCall 0 0 9) = .ret 1 [handle 0] rearmedWorld ∧
      (rearmedWorld.timers 0).active = true ∧
      (expire idle rearmedWorld 0).map World.resumed = some [9]) := by
  refine ⟨fun _ _ _ => rfl, rfl, rfl, rfl, ?_, ?_, rfl, ?_⟩
  · rw [(timeout_cb_attached idle recycledWorld 0 7 rfl).1]
    simp [resume_nargs, recycledWorld, world0]
  · rw [timer_start_args (startCall_args 0 0 9)]
    simp [lua_settop, startCall, LuaNumber.gt0, LuaNumber.le0, ev_timer_again,
      ev_set_watcher_userdata, recycledWorld, recycledBlock, LuaNumber.nonzero, rearmedWorld,
      world0, LuaNumber.add, LuaNumber.zero]
  · simp [expire, rescheduled, timeout_cb, ev_timer_again,
      ev_have_watcher_userdata, ev_get_watcher_userdata, lua_resume, recycledWorld,
      rearmedWorld, LuaNumber.nonzero, LuaNumber.zero, World.resumed, world0, idle,
      World.setTimer]

end CoreTimer
